import Mathlib

/-!
Shallow embedding of `src/app.py`, a three-stage video-to-blog pipeline
(audio extraction, remote transcription, remote blog generation) driven by a
Streamlit orchestrator (`main`).  Side effects are modelled as an explicit
event trace (`Ev`), the filesystem as a list of existing paths, and the
behaviour of the external libraries (moviepy, the remote speech-to-text and
text-generation services, the temp-file writer, `os.unlink`) as boolean
outcome flags in an environment record (`Env`).  Exceptions are modelled
with `Except`; a Python `try/except/finally` is translated by making every
branch of the embedded function produce the events and state updates the
corresponding Python control path produces.
-/

namespace VideoBlog

/-- Error taxonomy of the program.  Each constructor embeds one concrete
Python exception: `notFound` is the `FileNotFoundError` of line 32,
`noAudioTrack` the `ValueError` of line 67, `loadError` a failure of
`VideoFileClip`, `audioWriteError` a failure of `write_audiofile`,
`extractionCheckFailed` the `ValueError` of line 158, `missingCredential`
the `AttributeError` raised by using the `None` client of lines 18-20,
`transcriptionServiceError` / `generationServiceError` remote failures, and
`uploadError` a failure while saving the uploaded bytes. -/
inductive Err where
  | notFound (p : String)
  | loadError
  | noAudioTrack
  | audioWriteError
  | extractionCheckFailed
  | missingCredential
  | transcriptionServiceError
  | generationServiceError
  | uploadError
  deriving DecidableEq, Repr

/-- The three pipeline stages. -/
inductive Stage where
  | extraction
  | transcription
  | generation
  deriving DecidableEq, Repr

/-- The request sent to the chat-completion endpoint by `generate_blog`
(lines 121-127).  `max_tokens` and `temperature` are `Option` fields so the
embedding records whether the code passes them at all. -/
structure ChatRequest where
  model : String
  messages : List (String × String)
  max_tokens : Option Nat
  temperature : Option Nat
  deriving DecidableEq, Repr

/-- Observable events of one run.  `info` embeds the `st.write`/`st.text`
calls, `initError` the `st.error` of line 19, `stageError` the `st.error`
inside a stage handler (lines 70, 100, 131), `videoFailedToLoad` the
`st.error` of line 72, `outerError` the `st.error` of line 191,
`uploadFailedError` the `st.error` of line 203, `cleanupWarning` the
`st.warning` of line 200, `success` the `st.success` calls, `mkdirP` the
`mkdir` of line 44, `extractCall` the invocation of `extract_audio` with
its arguments, `loadVideo` the `VideoFileClip` call, the handle events the
acquisition/release of the native decoder and audio handles,
`writeAudioFile` the `write_audiofile` call, `remoteTranscribe` /
`remoteGenerate` the two remote API calls, `unlinkCall` the `os.unlink` of
line 198 and `downloadOffer` the download button of lines 183-188. -/
inductive Ev where
  | info (msg : String)
  | initError
  | stageError (s : Stage) (e : Err)
  | videoFailedToLoad
  | outerError (e : Err)
  | uploadFailedError (e : Err)
  | cleanupWarning (p : String)
  | success (msg : String)
  | mkdirP (dir : String)
  | extractCall (video : String) (output : Option String)
  | loadVideo (p : String)
  | openVideoHandle
  | closeVideoHandle
  | openAudioHandle
  | closeAudioHandle
  | writeAudioFile (p : String)
  | remoteTranscribe (key : String) (audio : String)
  | remoteGenerate (key : String) (req : ChatRequest)
  | unlinkCall (p : String)
  | downloadOffer (name : String) (mime : String)
  deriving DecidableEq, Repr

/-- Split a reversed character list at the first occurrence of `sep`
(which is the last occurrence in the original list): if `sep` occurs,
returns the (still reversed) characters that followed it in the original
list, and the (reversed) characters that preceded it. -/
def revBreakAt (sep : Char) : List Char → Option (List Char × List Char)
  | [] => none
  | c :: cs =>
    if c = sep then some ([], cs)
    else
      match revBreakAt sep cs with
      | none => none
      | some (a, b) => some (c :: a, b)

/-- Split a path into directory part (including the trailing slash) and
final component, at the last `/`; embeds `pathlib` name/parent splitting. -/
def splitPath (l : List Char) : List Char × List Char :=
  match revBreakAt '/' l.reverse with
  | some (nrev, drev) => (('/' :: drev).reverse, nrev.reverse)
  | none => ([], l)

/-- Replace the suffix of a final path component, `pathlib` style: the
suffix starts at the last dot of the name provided that dot is not the
first character; a name without such a dot just gets `suf` appended. -/
def replaceSuffixName (name suf : List Char) : List Char :=
  match revBreakAt '.' name.reverse with
  | some (_, stemRev) =>
    if stemRev.isEmpty then name ++ suf else stemRev.reverse ++ suf
  | none => name ++ suf

/-- Character-list core of `Path.with_suffix`. -/
def withSuffixL (l suf : List Char) : List Char :=
  (splitPath l).1 ++ replaceSuffixName (splitPath l).2 suf

/-- Embeds `Path(p).with_suffix(suf)` (lines 35 and 153). -/
def withSuffix (p suf : String) : String :=
  String.mk (withSuffixL p.data suf.data)

/-- Embeds `Path(p).parent` (used by the `mkdir` of line 44). -/
def parentDir (p : String) : String :=
  match revBreakAt '/' p.data.reverse with
  | some (_, drev) => if drev.isEmpty then String.mk ['/'] else String.mk drev.reverse
  | none => "."

/-- Environment of one run: the secret credential (if the Streamlit secret
exists), the UI inputs, the fresh random base name the temp-file library
picks, and the outcome of each external call the program makes. -/
structure Env where
  secretKey : Option String
  uploaded : Bool
  uploadExt : String
  uploadWriteOk : Bool
  buttonClicked : Bool
  tmpBase : String
  loadOk : Bool
  hasAudio : Bool
  audioWriteOk : Bool
  transcribeOk : Bool
  transcriptText : String
  generateOk : Bool
  blogText : String
  unlinkVideoOk : Bool
  unlinkAudioOk : Bool
  deriving DecidableEq, Repr

/-- Embeds the module-level client initialization (lines 13-20): a present
secret yields a client holding that key (even an empty one); a missing
secret raises inside the `try`, an error is displayed and `client = None`. -/
def initClient (e : Env) : Option String × List Ev :=
  match e.secretKey with
  | some k => (some k, [])
  | none => (none, [Ev.initError])

/-- Embeds `extract_audio` (lines 22-86): existence check, default output
path via `with_suffix`, debug writes, `mkdir`, `VideoFileClip` load, audio
presence check, `write_audiofile`, the `except` block displaying the error
and re-raising, and the `finally` block closing whichever of the audio and
video handles were acquired.  Returns the result, the event trace and the
updated filesystem. -/
def extract_audio (e : Env) (fs : List String) (video_path : String)
    (output_path : Option String) : Except Err String × List Ev × List String :=
  let callEv := Ev.extractCall video_path output_path
  if video_path ∈ fs then
    let out := match output_path with
      | none => withSuffix video_path ".mp3"
      | some p => p
    let dbg : List Ev :=
      [Ev.info ("Processing video: " ++ video_path),
       Ev.info ("Output path: " ++ out),
       Ev.mkdirP (parentDir out)]
    if e.loadOk then
      if e.hasAudio then
        if e.audioWriteOk then
          (Except.ok out,
           callEv :: dbg ++
             [Ev.loadVideo video_path, Ev.openVideoHandle, Ev.openAudioHandle,
              Ev.info "Extracting audio...", Ev.writeAudioFile out,
              Ev.info "Audio extraction complete!",
              Ev.closeAudioHandle, Ev.closeVideoHandle],
           out :: fs)
        else
          (Except.error Err.audioWriteError,
           callEv :: dbg ++
             [Ev.loadVideo video_path, Ev.openVideoHandle, Ev.openAudioHandle,
              Ev.info "Extracting audio...",
              Ev.stageError Stage.extraction Err.audioWriteError,
              Ev.closeAudioHandle, Ev.closeVideoHandle],
           fs)
      else
        (Except.error Err.noAudioTrack,
         callEv :: dbg ++
           [Ev.loadVideo video_path, Ev.openVideoHandle,
            Ev.stageError Stage.extraction Err.noAudioTrack,
            Ev.closeVideoHandle],
         fs)
    else
      (Except.error Err.loadError,
       callEv :: dbg ++
         [Ev.loadVideo video_path,
          Ev.stageError Stage.extraction Err.loadError,
          Ev.videoFailedToLoad],
       fs)
  else
    (Except.error (Err.notFound video_path),
     [callEv,
      Ev.stageError Stage.extraction (Err.notFound video_path),
      Ev.videoFailedToLoad],
     fs)

/-- Embeds the standalone `transcribe_audio` function (lines 88-101): it
calls the remote speech-to-text endpoint, and its `except` block displays a
stage-level error and re-raises.  A `None` client raises the attribute
error before any remote call. -/
def transcribe_audio (e : Env) (client : Option String) (audio_path : String) :
    Except Err String × List Ev :=
  match client with
  | none =>
    (Except.error Err.missingCredential,
     [Ev.stageError Stage.transcription Err.missingCredential])
  | some k =>
    if e.transcribeOk then
      (Except.ok e.transcriptText, [Ev.remoteTranscribe k audio_path])
    else
      (Except.error Err.transcriptionServiceError,
       [Ev.remoteTranscribe k audio_path,
        Ev.stageError Stage.transcription Err.transcriptionServiceError])

/-- Leading part of the f-string prompt template of lines 108-119. -/
def blogPromptPre : String :=
  "\n        Based on the following transcript, create a well-structured blog post:\n        \n        Transcript:\n        "

/-- Trailing part of the f-string prompt template of lines 108-119. -/
def blogPromptPost : String :=
  "\n        \n        Please format the blog post with:\n        1. An engaging title\n        2. Introduction\n        3. Main points with subheadings\n        4. Conclusion\n        "

/-- The prompt of `generate_blog`: the fixed template with the transcript
embedded verbatim. -/
def blogPrompt (transcript : String) : String :=
  blogPromptPre ++ transcript ++ blogPromptPost

/-- The chat-completion request `generate_blog` builds (lines 121-127):
fixed model, a system message and the user prompt; no `max_tokens` and no
`temperature` argument is passed. -/
def generateRequest (transcript : String) : ChatRequest :=
  { model := "gpt-4o-mini"
    messages := [("system", "You are a professional blog writer."),
                 ("user", blogPrompt transcript)]
    max_tokens := none
    temperature := none }

/-- Embeds `generate_blog` (lines 103-132): builds the request, calls the
remote generation endpoint, and on failure its `except` block displays a
stage-level error and re-raises.  A `None` client raises the attribute
error before any remote call. -/
def generate_blog (e : Env) (client : Option String) (transcript : String) :
    Except Err String × List Ev :=
  match client with
  | none =>
    (Except.error Err.missingCredential,
     [Ev.stageError Stage.generation Err.missingCredential])
  | some k =>
    if e.generateOk then
      (Except.ok e.blogText, [Ev.remoteGenerate k (generateRequest transcript)])
    else
      (Except.error Err.generationServiceError,
       [Ev.remoteGenerate k (generateRequest transcript),
        Ev.stageError Stage.generation Err.generationServiceError])

/-- The temp path `NamedTemporaryFile(delete=False, suffix=".mp4")` picks
(line 143): the OS temp directory, a fresh random base name, and always the
`.mp4` suffix regardless of the uploaded extension. -/
def tmpVideoPath (base : String) : String :=
  "/tmp/" ++ base ++ ".mp4"

/-- Embeds the inner `try` of `main` (lines 150-188): compute the output
path, call `extract_audio`, check the result file exists, then run the
transcription step inlined in the orchestrator (lines 162-167, with no
stage-level handler of its own), then `generate_blog`, then display and
offer the blog for download.  Any stage error aborts the rest and
propagates. -/
def pipelineBody (e : Env) (client : Option String) (video_path : String)
    (fs : List String) : Except Err String × List Ev × List String :=
  let output_path := withSuffix video_path ".mp3"
  match extract_audio e fs video_path (some output_path) with
  | (Except.error err, tr, fs1) => (Except.error err, tr, fs1)
  | (Except.ok audio_file, tr, fs1) =>
    if audio_file ∈ fs1 then
      let tr1 := tr ++ [Ev.success "Audio extracted successfully!"]
      match client with
      | none => (Except.error Err.missingCredential, tr1, fs1)
      | some k =>
        if e.transcribeOk then
          let transcript := e.transcriptText
          let tr2 := tr1 ++ [Ev.remoteTranscribe k audio_file,
                             Ev.success "Audio transcribed successfully!",
                             Ev.info transcript]
          match generate_blog e client transcript with
          | (Except.error err, gtr) => (Except.error err, tr2 ++ gtr, fs1)
          | (Except.ok blog, gtr) =>
            (Except.ok blog,
             tr2 ++ gtr ++
               [Ev.success "Blog post generated successfully!",
                Ev.info blog,
                Ev.downloadOffer "blog_post.md" "text/markdown"],
             fs1)
        else
          (Except.error Err.transcriptionServiceError,
           tr1 ++ [Ev.remoteTranscribe k audio_file],
           fs1)
    else
      (Except.error Err.extractionCheckFailed,
       tr ++ [Ev.success "Audio extracted successfully!"],
       fs1)

/-- Embeds the raw `os.unlink` call of line 198: removes the path from the
filesystem, or raises when the deletion fails. -/
def os_unlink (ok : Bool) (p : String) (fs : List String) :
    Except Err (List String) :=
  if ok then Except.ok (fs.filter (fun q => q != p)) else Except.error Err.uploadError

/-- Embeds one iteration of the cleanup loop (lines 195-200): skip missing
files, try to unlink the present ones, and catch any deletion error,
downgrading it to a warning instead of letting it propagate.  The `Except`
return type records whether anything escapes this handler. -/
def cleanupFile (ok : Bool) (p : String) (fs : List String) :
    Except Err (List String × List Ev) :=
  if p ∈ fs then
    match os_unlink ok p fs with
    | Except.ok fs2 => Except.ok (fs2, [Ev.unlinkCall p])
    | Except.error _ => Except.ok (fs, [Ev.unlinkCall p, Ev.cleanupWarning p])
  else
    Except.ok (fs, [])

/-- Embeds the whole `finally` cleanup loop of `main` over
`[video_path, output_path]`. -/
def cleanupFiles (e : Env) (video_path audio_path : String)
    (fs : List String) : Except Err (List String × List Ev) :=
  match cleanupFile e.unlinkVideoOk video_path fs with
  | Except.error err => Except.error err
  | Except.ok (fs1, t1) =>
    match cleanupFile e.unlinkAudioOk audio_path fs1 with
    | Except.error err => Except.error err
    | Except.ok (fs2, t2) => Except.ok (fs2, t1 ++ t2)

/-- Final outcome of one request. -/
inductive Outcome where
  | noUpload
  | uploadFailed (e : Err)
  | notTriggered
  | done (blog : String)
  | failed (e : Err)
  deriving DecidableEq, Repr

/-- Result of one run of `main`: the outcome, the event trace, and the
final filesystem. -/
structure MainOut where
  outcome : Outcome
  trace : List Ev
  fs : List String
  deriving DecidableEq, Repr

/-- Embeds `main` (lines 134-203).  If a file is uploaded its bytes are
saved to a fresh `.mp4` temp file (the file exists as soon as it is
opened, before the write).  If saving fails the exception is caught by the
outer handler of line 202 and nothing is cleaned up.  If the button is not
clicked the request ends with the temp file still on disk.  Otherwise the
pipeline runs, a failure is caught by the handler of line 190, and the
`finally` block of lines 193-200 cleans up both temp paths. -/
def main (e : Env) (client : Option String) (fs0 : List String) : MainOut :=
  let hdr : List Ev := [Ev.info "Video to Blog Generator",
                        Ev.info "Upload a video file to generate a blog post"]
  if e.uploaded then
    let video_path := tmpVideoPath e.tmpBase
    let fs1 := video_path :: fs0
    if e.uploadWriteOk then
      let tr1 := hdr ++ [Ev.info ("Temporary file created at: " ++ video_path)]
      if e.buttonClicked then
        let output_path := withSuffix video_path ".mp3"
        let p := pipelineBody e client video_path fs1
        let handled : List Ev :=
          match p.1 with
          | Except.ok _ => []
          | Except.error err => [Ev.outerError err]
        match cleanupFiles e video_path output_path p.2.2 with
        | Except.ok cres =>
          { outcome := match p.1 with
              | Except.ok b => Outcome.done b
              | Except.error err => Outcome.failed err
            trace := tr1 ++ p.2.1 ++ handled ++ cres.2
            fs := cres.1 }
        | Except.error err =>
          { outcome := Outcome.uploadFailed err
            trace := tr1 ++ p.2.1 ++ handled ++ [Ev.uploadFailedError err]
            fs := p.2.2 }
      else
        { outcome := Outcome.notTriggered, trace := tr1, fs := fs1 }
    else
      { outcome := Outcome.uploadFailed Err.uploadError
        trace := hdr ++ [Ev.uploadFailedError Err.uploadError]
        fs := fs1 }
  else
    { outcome := Outcome.noUpload, trace := hdr, fs := fs0 }

/-- One full run of the module: client initialization, then `main`. -/
def app (e : Env) (fs0 : List String) : MainOut :=
  let c := initClient e
  let m := main e c.1 fs0
  { m with trace := c.2 ++ m.trace }

/-- True on the events that embed a remote API call. -/
def isRemoteEv : Ev → Bool
  | Ev.remoteTranscribe _ _ => true
  | Ev.remoteGenerate _ _ => true
  | _ => false

/-- Whether a trace contains any remote API call. -/
def hasRemoteCall (tr : List Ev) : Bool :=
  tr.any isRemoteEv

/-- True on stage-level error displays of the given stage. -/
def isStageErrorOf (s : Stage) : Ev → Bool
  | Ev.stageError s2 _ =>
    match s, s2 with
    | Stage.extraction, Stage.extraction => true
    | Stage.transcription, Stage.transcription => true
    | Stage.generation, Stage.generation => true
    | _, _ => false
  | _ => false

/-- True on the outer-handler error display of line 191. -/
def isOuterErrorEv : Ev → Bool
  | Ev.outerError _ => true
  | _ => false

/-- True on the video-decoder handle acquisition event. -/
def isOpenVideo : Ev → Bool
  | Ev.openVideoHandle => true
  | _ => false

/-- True on the video-decoder handle release event. -/
def isCloseVideo : Ev → Bool
  | Ev.closeVideoHandle => true
  | _ => false

/-- True on the audio handle acquisition event. -/
def isOpenAudio : Ev → Bool
  | Ev.openAudioHandle => true
  | _ => false

/-- True on the audio handle release event. -/
def isCloseAudio : Ev → Bool
  | Ev.closeAudioHandle => true
  | _ => false

/-! Helper lemmas about the path model. -/

theorem revBreakAt_elem (sep : Char) (l r : List Char) (h : sep ∉ l) :
    revBreakAt sep (l ++ sep :: r) = some (l, r) := by
  induction l with
  | nil => simp [revBreakAt]
  | cons c cs ih =>
    simp only [List.mem_cons, not_or] at h
    have hc : ¬ c = sep := fun hh => h.1 hh.symm
    simp [revBreakAt, hc, ih h.2]

theorem splitPath_eq (d name : List Char) (h : '/' ∉ name) :
    splitPath ((d ++ ['/']) ++ name) = (d ++ ['/'], name) := by
  unfold splitPath
  have h1 : ((d ++ ['/']) ++ name).reverse = name.reverse ++ '/' :: d.reverse := by
    simp
  rw [h1, revBreakAt_elem '/' name.reverse d.reverse (by simpa using h)]
  simp

theorem replaceSuffixName_eq (stem ext suf : List Char)
    (hstem : stem ≠ []) (hext : '.' ∉ ext) :
    replaceSuffixName (stem ++ '.' :: ext) suf = stem ++ suf := by
  unfold replaceSuffixName
  have h1 : (stem ++ '.' :: ext).reverse = ext.reverse ++ '.' :: stem.reverse := by
    simp
  rw [h1, revBreakAt_elem '.' ext.reverse stem.reverse (by simpa using hext)]
  simp [hstem]

theorem withSuffixL_replace (d stem ext suf : List Char)
    (hstem : stem ≠ []) (hs : '/' ∉ stem)
    (he1 : '/' ∉ ext) (he2 : '.' ∉ ext) :
    withSuffixL ((d ++ ['/']) ++ (stem ++ '.' :: ext)) suf
      = (d ++ ['/']) ++ (stem ++ suf) := by
  have hname : '/' ∉ stem ++ '.' :: ext := by
    intro hmem
    rcases List.mem_append.mp hmem with h1 | h1
    · exact hs h1
    · rcases List.mem_cons.mp h1 with h2 | h2
      · exact absurd h2 (by decide)
      · exact he1 h2
  unfold withSuffixL
  rw [splitPath_eq d (stem ++ '.' :: ext) hname]
  rw [replaceSuffixName_eq stem ext suf hstem he2]

theorem withSuffix_mk (d stem ext : List Char) (suf : String)
    (hstem : stem ≠ []) (hs : '/' ∉ stem)
    (he1 : '/' ∉ ext) (he2 : '.' ∉ ext) :
    withSuffix (String.mk ((d ++ ['/']) ++ (stem ++ '.' :: ext))) suf
      = String.mk ((d ++ ['/']) ++ (stem ++ suf.data)) :=
  congrArg String.mk (withSuffixL_replace d stem ext suf.data hstem hs he1 he2)

theorem withSuffix_tmp (base : String) (hne : base ≠ "")
    (hdot : '.' ∉ base.data) (hslash : '/' ∉ base.data) :
    withSuffix (tmpVideoPath base) ".mp3" = "/tmp/" ++ base ++ ".mp3" := by
  obtain ⟨bl⟩ := base
  have hbl : bl ≠ [] := by
    intro h
    exact hne (by rw [h])
  have key := withSuffixL_replace ['/', 't', 'm', 'p'] bl ['m', 'p', '4']
    ['.', 'm', 'p', '3'] hbl hslash (by decide) (by decide)
  show String.mk (withSuffixL (('/' :: 't' :: 'm' :: 'p' :: '/' :: bl) ++ ['.', 'm', 'p', '4'])
      ['.', 'm', 'p', '3'])
    = String.mk (('/' :: 't' :: 'm' :: 'p' :: '/' :: bl) ++ ['.', 'm', 'p', '3'])
  refine congrArg String.mk ?_
  have h2 : (('/' :: 't' :: 'm' :: 'p' :: '/' :: bl) ++ ['.', 'm', 'p', '4'])
      = (['/', 't', 'm', 'p'] ++ ['/']) ++ (bl ++ '.' :: ['m', 'p', '4']) := by
    simp
  rw [h2, key]
  simp

/-! Helper lemmas about cleanup. -/

theorem cleanupFile_spec (ok : Bool) (p : String) (fs : List String) :
    ∃ fs2 tr, cleanupFile ok p fs = Except.ok (fs2, tr) ∧
      (∀ ev ∈ tr, ev = Ev.unlinkCall p ∨ ev = Ev.cleanupWarning p) ∧
      (∀ q, q ∉ fs → q ∉ fs2) ∧
      (ok = true → p ∉ fs2) ∧
      (ok = false → fs2 = fs) ∧
      (ok = false → p ∈ fs → Ev.cleanupWarning p ∈ tr) := by
  by_cases hp : p ∈ fs
  · cases ok with
    | false =>
      refine ⟨fs, [Ev.unlinkCall p, Ev.cleanupWarning p], ?_, ?_, ?_, ?_, ?_, ?_⟩
      · simp [cleanupFile, os_unlink, hp]
      · intro ev hev
        simpa using hev
      · intro q hq
        exact hq
      · intro h
        cases h
      · intro _
        rfl
      · intro _ _
        simp
    | true =>
      refine ⟨fs.filter (fun q => q != p), [Ev.unlinkCall p], ?_, ?_, ?_, ?_, ?_, ?_⟩
      · simp [cleanupFile, os_unlink, hp]
      · intro ev hev
        left
        simpa using hev
      · intro q hq hq2
        exact hq (List.mem_of_mem_filter hq2)
      · intro _ hmem
        have := List.of_mem_filter hmem
        simp at this
      · intro h
        cases h
      · intro h
        cases h
  · refine ⟨fs, [], ?_, ?_, ?_, ?_, ?_, ?_⟩
    · simp [cleanupFile, hp]
    · intro ev hev
      simp at hev
    · intro q hq
      exact hq
    · intro _
      exact hp
    · intro _
      rfl
    · intro _ hmem
      exact absurd hmem hp

theorem cleanupFiles_spec (e : Env) (vp ap : String) (fs : List String) :
    ∃ fs2 tr, cleanupFiles e vp ap fs = Except.ok (fs2, tr) ∧
      (∀ ev ∈ tr, (∃ q, ev = Ev.unlinkCall q) ∨ ∃ q, ev = Ev.cleanupWarning q) ∧
      (∀ q, q ∉ fs → q ∉ fs2) ∧
      (e.unlinkVideoOk = true → vp ∉ fs2) ∧
      (e.unlinkAudioOk = true → ap ∉ fs2) := by
  obtain ⟨fsa, tra, ha, haev, hamono, haok, _, _⟩ :=
    cleanupFile_spec e.unlinkVideoOk vp fs
  obtain ⟨fsb, trb, hb, hbev, hbmono, hbok, _, _⟩ :=
    cleanupFile_spec e.unlinkAudioOk ap fsa
  refine ⟨fsb, tra ++ trb, ?_, ?_, ?_, ?_, ?_⟩
  · simp [cleanupFiles, ha, hb]
  · intro ev hev
    rcases List.mem_append.mp hev with h | h
    · rcases haev ev h with h2 | h2
      · exact Or.inl ⟨vp, h2⟩
      · exact Or.inr ⟨vp, h2⟩
    · rcases hbev ev h with h2 | h2
      · exact Or.inl ⟨ap, h2⟩
      · exact Or.inr ⟨ap, h2⟩
  · intro q hq
    exact hbmono q (hamono q hq)
  · intro h
    exact hbmono vp (haok h)
  · exact hbok

theorem cleanup_any_false (ctr : List Ev)
    (h : ∀ ev ∈ ctr, (∃ q, ev = Ev.unlinkCall q) ∨ ∃ q, ev = Ev.cleanupWarning q)
    (p : Ev → Bool)
    (hp1 : ∀ q, p (Ev.unlinkCall q) = false)
    (hp2 : ∀ q, p (Ev.cleanupWarning q) = false) :
    ctr.any p = false := by
  simp only [List.any_eq_false]
  intro ev hev
  rcases h ev hev with ⟨q, rfl⟩ | ⟨q, rfl⟩
  · simp [hp1 q]
  · simp [hp2 q]

/-! Decomposition of a full run with the generation button clicked. -/

theorem app_run (e : Env) (fs0 : List String)
    (hu : e.uploaded = true) (hw : e.uploadWriteOk = true)
    (hb : e.buttonClicked = true) :
    ∃ ctr,
      (∀ ev ∈ ctr, (∃ q, ev = Ev.unlinkCall q) ∨ ∃ q, ev = Ev.cleanupWarning q) ∧
      (app e fs0).trace =
        (initClient e).2 ++
        ([Ev.info "Video to Blog Generator",
          Ev.info "Upload a video file to generate a blog post",
          Ev.info ("Temporary file created at: " ++ tmpVideoPath e.tmpBase)] ++
         (pipelineBody e (initClient e).1 (tmpVideoPath e.tmpBase)
            (tmpVideoPath e.tmpBase :: fs0)).2.1 ++
         (match (pipelineBody e (initClient e).1 (tmpVideoPath e.tmpBase)
            (tmpVideoPath e.tmpBase :: fs0)).1 with
          | Except.ok _ => []
          | Except.error err => [Ev.outerError err]) ++ ctr) ∧
      (app e fs0).outcome =
        (match (pipelineBody e (initClient e).1 (tmpVideoPath e.tmpBase)
            (tmpVideoPath e.tmpBase :: fs0)).1 with
         | Except.ok b => Outcome.done b
         | Except.error err => Outcome.failed err) ∧
      (∀ q, q ∉ (pipelineBody e (initClient e).1 (tmpVideoPath e.tmpBase)
            (tmpVideoPath e.tmpBase :: fs0)).2.2 → q ∉ (app e fs0).fs) ∧
      (e.unlinkVideoOk = true → tmpVideoPath e.tmpBase ∉ (app e fs0).fs) ∧
      (e.unlinkAudioOk = true →
        withSuffix (tmpVideoPath e.tmpBase) ".mp3" ∉ (app e fs0).fs) := by
  obtain ⟨fs2, ctr, hc, hcev, hcmono, hcv, hca⟩ :=
    cleanupFiles_spec e (tmpVideoPath e.tmpBase)
      (withSuffix (tmpVideoPath e.tmpBase) ".mp3")
      (pipelineBody e (initClient e).1 (tmpVideoPath e.tmpBase)
        (tmpVideoPath e.tmpBase :: fs0)).2.2
  refine ⟨ctr, hcev, ?_, ?_, ?_, ?_, ?_⟩
  · simp [app, main, hu, hw, hb, hc]
  · simp [app, main, hu, hw, hb, hc]
  · intro q hq
    have h2 := hcmono q hq
    simpa [app, main, hu, hw, hb, hc] using h2
  · intro h
    have h2 := hcv h
    simpa [app, main, hu, hw, hb, hc] using h2
  · intro h
    have h2 := hca h
    simpa [app, main, hu, hw, hb, hc] using h2

theorem any_isRemote_init (e : Env) : (initClient e).2.any isRemoteEv = false := by
  cases h : e.secretKey <;> simp [initClient, h, isRemoteEv]

theorem extract_no_remote (e : Env) (fs : List String) (vp : String)
    (o : Option String) :
    (extract_audio e fs vp o).2.1.any isRemoteEv = false := by
  by_cases hvp : vp ∈ fs <;>
    cases hL : e.loadOk <;> cases hA : e.hasAudio <;> cases hW : e.audioWriteOk <;>
      simp [extract_audio, hvp, hL, hA, hW, isRemoteEv]

theorem extract_no_stageT (e : Env) (fs : List String) (vp : String)
    (o : Option String) :
    (extract_audio e fs vp o).2.1.any (isStageErrorOf Stage.transcription) = false := by
  by_cases hvp : vp ∈ fs <;>
    cases hL : e.loadOk <;> cases hA : e.hasAudio <;> cases hW : e.audioWriteOk <;>
      simp [extract_audio, hvp, hL, hA, hW, isStageErrorOf]

theorem extractCall_mem (e : Env) (fs : List String) (vp : String)
    (o : Option String) :
    Ev.extractCall vp o ∈ (extract_audio e fs vp o).2.1 := by
  by_cases hvp : vp ∈ fs <;>
    cases hL : e.loadOk <;> cases hA : e.hasAudio <;> cases hW : e.audioWriteOk <;>
      simp [extract_audio, hvp, hL, hA, hW]

theorem pipelineBody_trace (e : Env) (c : Option String) (vp : String)
    (fs : List String) :
    ∃ rest, (pipelineBody e c vp fs).2.1 =
      (extract_audio e fs vp (some (withSuffix vp ".mp3"))).2.1 ++ rest := by
  simp only [pipelineBody]
  rcases hx : extract_audio e fs vp (some (withSuffix vp ".mp3")) with ⟨r, tr, fsx⟩
  cases r with
  | error err => exact ⟨[], by simp⟩
  | ok audio_file =>
    by_cases hmem : audio_file ∈ fsx
    · cases c with
      | none => exact ⟨[Ev.success "Audio extracted successfully!"], by simp [hmem]⟩
      | some k =>
        cases htr : e.transcribeOk with
        | false =>
          exact ⟨[Ev.success "Audio extracted successfully!",
                  Ev.remoteTranscribe k audio_file], by simp [hmem, htr]⟩
        | true =>
          rcases hg : generate_blog e (some k) e.transcriptText with ⟨g, gtr⟩
          cases g with
          | error err =>
            refine ⟨[Ev.success "Audio extracted successfully!",
                     Ev.remoteTranscribe k audio_file,
                     Ev.success "Audio transcribed successfully!",
                     Ev.info e.transcriptText] ++ gtr, ?_⟩
            simp [hmem, htr, hg]
          | ok blog =>
            refine ⟨[Ev.success "Audio extracted successfully!",
                     Ev.remoteTranscribe k audio_file,
                     Ev.success "Audio transcribed successfully!",
                     Ev.info e.transcriptText] ++ gtr ++
                    [Ev.success "Blog post generated successfully!",
                     Ev.info blog,
                     Ev.downloadOffer "blog_post.md" "text/markdown"], ?_⟩
            simp [hmem, htr, hg]
    · exact ⟨[Ev.success "Audio extracted successfully!"], by simp [hmem]⟩

theorem pipelineBody_none (e : Env) (vp : String) (fs : List String) :
    (∃ err, (pipelineBody e none vp fs).1 = Except.error err) ∧
    (pipelineBody e none vp fs).2.1.any isRemoteEv = false := by
  have hnr := extract_no_remote e fs vp (some (withSuffix vp ".mp3"))
  simp only [pipelineBody]
  rcases hx : extract_audio e fs vp (some (withSuffix vp ".mp3")) with ⟨r, tr, fsx⟩
  rw [hx] at hnr
  cases r with
  | error err =>
    constructor
    · exact ⟨err, rfl⟩
    · simpa using hnr
  | ok audio_file =>
    by_cases hmem : audio_file ∈ fsx
    · constructor
      · exact ⟨Err.missingCredential, by simp [hmem]⟩
      · simp [hmem, isRemoteEv]
        simpa using hnr
    · constructor
      · exact ⟨Err.extractionCheckFailed, by simp [hmem]⟩
      · simp [hmem, isRemoteEv]
        simpa using hnr

/-! Concrete environments used by the closed theorems below. -/

/-- A run with an empty-but-present credential and every external call
succeeding. -/
def envEmptyKey : Env :=
  { secretKey := some ""
    uploaded := true
    uploadExt := "mp4"
    uploadWriteOk := true
    buttonClicked := true
    tmpBase := "tmpvid"
    loadOk := true
    hasAudio := true
    audioWriteOk := true
    transcribeOk := true
    transcriptText := "hello world"
    generateOk := true
    blogText := "a blog post"
    unlinkVideoOk := true
    unlinkAudioOk := true }

/-- Same run but the Streamlit secret is missing, so client init fails. -/
def envNoKey : Env := { envEmptyKey with secretKey := none }

/-- A fully successful run with a normal credential. -/
def envAllOk : Env := { envEmptyKey with secretKey := some "k" }

/-- A run in which saving the uploaded bytes to the temp file fails. -/
def envUploadFail : Env := { envAllOk with uploadWriteOk := false }

/-- A run in which the file is uploaded but the button is never clicked. -/
def envNotClicked : Env := { envAllOk with buttonClicked := false }

/-- A run in which the remote transcription call fails. -/
def envTransFail : Env := { envAllOk with transcribeOk := false }

/-- A run in which the video container cannot be loaded. -/
def envLoadFail : Env := { envAllOk with loadOk := false }

/-- A run in which the video has no audio track. -/
def envNoAudio : Env := { envAllOk with hasAudio := false }

/-- Claim C1, counterexample: in a run whose credential is the empty string
(present but empty), the pipeline does not halt and a remote transcription
call is made, contradicting the claim that for an empty credential no
remote transcription or generation call is made. -/
theorem C1_cex :
    envEmptyKey.secretKey = some "" ∧
    hasRemoteCall (app envEmptyKey []).trace = true := by
  exact ⟨rfl, rfl⟩

/-- Claim C1 (amended): with a missing credential (client initialization
failed, client is empty) a triggered run makes no remote transcription or
generation call and ends in Failed; when extraction succeeds the reported
failure is the missing-client error, raised at the transcription step.  An
empty-but-present credential is not rejected locally. -/
theorem C1_thm (e : Env) (fs0 : List String)
    (hk : e.secretKey = none)
    (hu : e.uploaded = true) (hw : e.uploadWriteOk = true)
    (hb : e.buttonClicked = true) :
    hasRemoteCall (app e fs0).trace = false ∧
    (∃ err, (app e fs0).outcome = Outcome.failed err) ∧
    (e.loadOk = true → e.hasAudio = true → e.audioWriteOk = true →
      (app e fs0).outcome = Outcome.failed Err.missingCredential) := by
  obtain ⟨ctr, hcev, htr, hout, hmono, hv, ha⟩ := app_run e fs0 hu hw hb
  have hclient : (initClient e).1 = none := by simp [initClient, hk]
  have hinit : (initClient e).2 = [Ev.initError] := by simp [initClient, hk]
  rw [hclient] at htr hout
  obtain ⟨⟨err0, herr0⟩, hnr⟩ :=
    pipelineBody_none e (tmpVideoPath e.tmpBase) (tmpVideoPath e.tmpBase :: fs0)
  have hctr : ctr.any isRemoteEv = false :=
    cleanup_any_false ctr hcev isRemoteEv (fun _ => rfl) (fun _ => rfl)
  refine ⟨?_, ?_, ?_⟩
  · rw [htr]
    simp [hasRemoteCall, hinit, herr0, hnr, hctr, isRemoteEv]
  · rw [hout, herr0]
    exact ⟨err0, rfl⟩
  · intro hL hA hW
    rw [hout]
    have hval : (pipelineBody e none (tmpVideoPath e.tmpBase)
        (tmpVideoPath e.tmpBase :: fs0)).1 = Except.error Err.missingCredential := by
      simp [pipelineBody, extract_audio, hL, hA, hW]
    rw [hval]

/-- Claim C1, witness of the amended theorem at a concrete run. -/
theorem C1_wit :
    hasRemoteCall (app envNoKey []).trace = false ∧
    (∃ err, (app envNoKey []).outcome = Outcome.failed err) ∧
    (envNoKey.loadOk = true → envNoKey.hasAudio = true →
      envNoKey.audioWriteOk = true →
      (app envNoKey []).outcome = Outcome.failed Err.missingCredential) :=
  C1_thm envNoKey [] rfl rfl rfl rfl

/-- Claim C2, counterexample: the cleanup loop lives inside the generation
button branch, so when saving the upload fails (caught by the outer
handler of line 202) — and likewise when the button is never clicked — the
video temp file is still on disk at the end of the request, contradicting
deletion on every exit path. -/
theorem C2_cex :
    ((app envUploadFail []).outcome = Outcome.uploadFailed Err.uploadError ∧
      tmpVideoPath envUploadFail.tmpBase ∈ (app envUploadFail []).fs) ∧
    ((app envNotClicked []).outcome = Outcome.notTriggered ∧
      tmpVideoPath envNotClicked.tmpBase ∈ (app envNotClicked []).fs) := by
  refine ⟨⟨rfl, ?_⟩, ⟨rfl, ?_⟩⟩ <;> decide

/-- Claim C2 (amended): once the upload is saved successfully and
generation is triggered, both the video temp file and the audio temp file
are absent from the filesystem at the end of the request on every pipeline
exit path (success or any stage failure), provided the deletions
themselves succeed; on upload failure, or when generation is never
triggered, the video temp file survives the request. -/
theorem C2_thm (e : Env) (fs0 : List String)
    (hu : e.uploaded = true) (hw : e.uploadWriteOk = true)
    (hb : e.buttonClicked = true)
    (hv : e.unlinkVideoOk = true) (ha : e.unlinkAudioOk = true) :
    tmpVideoPath e.tmpBase ∉ (app e fs0).fs ∧
    withSuffix (tmpVideoPath e.tmpBase) ".mp3" ∉ (app e fs0).fs := by
  obtain ⟨ctr, hcev, htr, hout, hmono, hvp, hap⟩ := app_run e fs0 hu hw hb
  exact ⟨hvp hv, hap ha⟩

/-- Claim C2, witness of the amended theorem at a concrete run (a failing
transcription stage, so cleanup runs on a failure path). -/
theorem C2_wit :
    tmpVideoPath envTransFail.tmpBase ∉ (app envTransFail []).fs ∧
    withSuffix (tmpVideoPath envTransFail.tmpBase) ".mp3"
      ∉ (app envTransFail []).fs :=
  C2_thm envTransFail [] rfl rfl rfl rfl rfl

/-- Claim C3, counterexample: a run whose transcription fails ends in
Failed with the transcription error and its trace contains no stage-level
transcription error display at all — only the outer handler of line 190
reports it — because the orchestrator inlines the transcription call
instead of using the `transcribe_audio` stage function with its handler. -/
theorem C3_cex :
    (app envTransFail []).outcome = Outcome.failed Err.transcriptionServiceError ∧
    (app envTransFail []).trace.any (isStageErrorOf Stage.transcription) = false ∧
    (app envTransFail []).trace.any isOuterErrorEv = true := by
  exact ⟨rfl, rfl, rfl⟩

/-- Claim C3 (amended): the extraction and generation stages each catch
their own failures, display a stage-level error and re-raise (and so does
the standalone `transcribe_audio` function); but the orchestrator inlines
the transcription call without a stage-level handler, so a transcription
failure reaches the outer handler with no stage-level message, while the
outer handler still reports the error and cleanup still runs. -/
theorem C3_thm :
    (∀ (e : Env) (fs : List String) (vp : String) (o : Option String) (err : Err),
      (extract_audio e fs vp o).1 = Except.error err →
        Ev.stageError Stage.extraction err ∈ (extract_audio e fs vp o).2.1) ∧
    (∀ (e : Env) (c : Option String) (t : String) (err : Err),
      (generate_blog e c t).1 = Except.error err →
        Ev.stageError Stage.generation err ∈ (generate_blog e c t).2) ∧
    (∀ (e : Env) (c : Option String) (a : String) (err : Err),
      (transcribe_audio e c a).1 = Except.error err →
        Ev.stageError Stage.transcription err ∈ (transcribe_audio e c a).2) ∧
    (∀ (e : Env) (fs0 : List String) (k : String),
      e.uploaded = true → e.uploadWriteOk = true → e.buttonClicked = true →
      e.secretKey = some k → e.loadOk = true → e.hasAudio = true →
      e.audioWriteOk = true → e.transcribeOk = false → e.unlinkVideoOk = true →
      (app e fs0).outcome = Outcome.failed Err.transcriptionServiceError ∧
      (app e fs0).trace.any (isStageErrorOf Stage.transcription) = false ∧
      Ev.outerError Err.transcriptionServiceError ∈ (app e fs0).trace ∧
      tmpVideoPath e.tmpBase ∉ (app e fs0).fs) := by
  refine ⟨?_, ?_, ?_, ?_⟩
  · intro e fs vp o err h
    by_cases hvp : vp ∈ fs <;>
      cases hL : e.loadOk <;> cases hA : e.hasAudio <;> cases hW : e.audioWriteOk <;>
        simp_all [extract_audio]
  · intro e c t err h
    cases c <;> cases hg : e.generateOk <;> simp_all [generate_blog]
  · intro e c a err h
    cases c <;> cases ht : e.transcribeOk <;> simp_all [transcribe_audio]
  · intro e fs0 k hu hw hb hsk hL hA hW hT hv
    obtain ⟨ctr, hcev, htr, hout, hmono, hvp, hap⟩ := app_run e fs0 hu hw hb
    have hclient : (initClient e).1 = some k := by simp [initClient, hsk]
    have hinit : (initClient e).2 = [] := by simp [initClient, hsk]
    rw [hclient] at htr hout
    have h1 : (pipelineBody e (some k) (tmpVideoPath e.tmpBase)
        (tmpVideoPath e.tmpBase :: fs0)).1
        = Except.error Err.transcriptionServiceError := by
      simp [pipelineBody, extract_audio, hL, hA, hW, hT]
    have h2 : (pipelineBody e (some k) (tmpVideoPath e.tmpBase)
        (tmpVideoPath e.tmpBase :: fs0)).2.1.any
          (isStageErrorOf Stage.transcription) = false := by
      simp [pipelineBody, extract_audio, hL, hA, hW, hT, isStageErrorOf]
    have hctr : ctr.any (isStageErrorOf Stage.transcription) = false :=
      cleanup_any_false ctr hcev (isStageErrorOf Stage.transcription)
        (fun _ => rfl) (fun _ => rfl)
    refine ⟨?_, ?_, ?_, ?_⟩
    · rw [hout, h1]
    · rw [htr]
      simp [hinit, h1, h2, hctr, isStageErrorOf]
    · rw [htr]
      simp [h1]
    · exact hvp hv

/-- Claim C3, witness: the extraction stage displays its stage-level error
on a concrete failing load. -/
theorem C3_wit :
    Ev.stageError Stage.extraction Err.loadError
      ∈ (extract_audio envLoadFail ["/tmp/v.mp4"] "/tmp/v.mp4" none).2.1 :=
  C3_thm.1 envLoadFail ["/tmp/v.mp4"] "/tmp/v.mp4" none Err.loadError rfl

/-- Claim C4: a loadable video with no audio stream makes extraction fail
with the no-audio-track error and the run ends in Failed with that error,
with no remote transcription or generation call anywhere in the trace. -/
theorem C4_thm (e : Env) (fs0 : List String)
    (hu : e.uploaded = true) (hw : e.uploadWriteOk = true)
    (hb : e.buttonClicked = true)
    (hL : e.loadOk = true) (hA : e.hasAudio = false) :
    (app e fs0).outcome = Outcome.failed Err.noAudioTrack ∧
    hasRemoteCall (app e fs0).trace = false := by
  obtain ⟨ctr, hcev, htr, hout, hmono, hvp, hap⟩ := app_run e fs0 hu hw hb
  have h1 : (pipelineBody e (initClient e).1 (tmpVideoPath e.tmpBase)
      (tmpVideoPath e.tmpBase :: fs0)).1 = Except.error Err.noAudioTrack := by
    simp [pipelineBody, extract_audio, hL, hA]
  have h2 : (pipelineBody e (initClient e).1 (tmpVideoPath e.tmpBase)
      (tmpVideoPath e.tmpBase :: fs0)).2.1.any isRemoteEv = false := by
    simp [pipelineBody, extract_audio, hL, hA, isRemoteEv]
  have hctr : ctr.any isRemoteEv = false :=
    cleanup_any_false ctr hcev isRemoteEv (fun _ => rfl) (fun _ => rfl)
  constructor
  · rw [hout, h1]
  · rw [htr]
    simp [hasRemoteCall, any_isRemote_init, h1, h2, hctr, isRemoteEv]

/-- Claim C4, witness at a concrete audio-less run. -/
theorem C4_wit :
    (app envNoAudio []).outcome = Outcome.failed Err.noAudioTrack ∧
    hasRemoteCall (app envNoAudio []).trace = false :=
  C4_thm envNoAudio [] rfl rfl rfl rfl rfl

/-- Claim C5, counterexample: the request `generate_blog` sends carries the
fixed model but no output-length bound and no sampling temperature (the
code passes neither argument), contradicting the claim that the call sets
a bounded output length and a fixed sampling temperature. -/
theorem C5_cex :
    (generate_blog envAllOk (some "k") "hello").2
      = [Ev.remoteGenerate "k" (generateRequest "hello")] ∧
    (generateRequest "hello").max_tokens = none ∧
    (generateRequest "hello").temperature = none := by
  exact ⟨rfl, rfl, rfl⟩

/-- Claim C5 (amended): for every transcript, `generate_blog` sends the
generation service the fixed instruction template with the transcript
embedded verbatim (requesting a title, introduction, subheaded main
points and conclusion) under the fixed model identifier gpt-4o-mini; it
sets no output-length bound and no sampling temperature, leaving the
service defaults. -/
theorem C5_thm (e : Env) (k transcript : String) :
    (∃ rest, (generate_blog e (some k) transcript).2
      = Ev.remoteGenerate k (generateRequest transcript) :: rest) ∧
    (generateRequest transcript).model = "gpt-4o-mini" ∧
    (generateRequest transcript).messages
      = [("system", "You are a professional blog writer."),
         ("user", blogPromptPre ++ transcript ++ blogPromptPost)] ∧
    (generateRequest transcript).max_tokens = none ∧
    (generateRequest transcript).temperature = none := by
  refine ⟨?_, rfl, rfl, rfl, rfl⟩
  cases hg : e.generateOk
  · exact ⟨[Ev.stageError Stage.generation Err.generationServiceError],
      by simp [generate_blog, hg]⟩
  · exact ⟨[], by simp [generate_blog, hg]⟩

/-- Claim C6: on every exit path of `extract_audio` (success, load failure,
missing audio track, write failure, missing input) the number of decoder
handle acquisitions equals the number of decoder handle releases in its
trace, and likewise for the audio handle: the `finally` block closes every
handle that was opened before the call returns or the exception
propagates. -/
theorem C6_thm (e : Env) (fs : List String) (vp : String) (o : Option String) :
    (extract_audio e fs vp o).2.1.countP isOpenVideo
        = (extract_audio e fs vp o).2.1.countP isCloseVideo ∧
    (extract_audio e fs vp o).2.1.countP isOpenAudio
        = (extract_audio e fs vp o).2.1.countP isCloseAudio := by
  by_cases hvp : vp ∈ fs <;>
    cases hL : e.loadOk <;> cases hA : e.hasAudio <;> cases hW : e.audioWriteOk <;>
      simp [extract_audio, hvp, hL, hA, hW, isOpenVideo, isCloseVideo,
        isOpenAudio, isCloseAudio, List.countP_cons, List.countP_append]

/-- Claim C7: for an existing input with a loadable audio track,
`extract_audio` with no explicit output path writes the audio file at the
input path with its suffix replaced by the mp3 extension and returns that
path; with an explicit output path it returns that path; and suffix
replacement keeps the directory and stem, changing only the extension. -/
theorem C7_thm (e : Env) (fs : List String) (p : String)
    (hp : p ∈ fs) (hL : e.loadOk = true) (hA : e.hasAudio = true)
    (hW : e.audioWriteOk = true) :
    (extract_audio e fs p none).1 = Except.ok (withSuffix p ".mp3") ∧
    withSuffix p ".mp3" ∈ (extract_audio e fs p none).2.2 ∧
    Ev.writeAudioFile (withSuffix p ".mp3") ∈ (extract_audio e fs p none).2.1 ∧
    (∀ q, (extract_audio e fs p (some q)).1 = Except.ok q) ∧
    (∀ d stem ext, stem ≠ [] → '/' ∉ stem → '/' ∉ ext → '.' ∉ ext →
      withSuffix (String.mk ((d ++ ['/']) ++ (stem ++ '.' :: ext))) ".mp3"
        = String.mk ((d ++ ['/']) ++ (stem ++ ".mp3".data))) := by
  refine ⟨?_, ?_, ?_, ?_, ?_⟩
  · simp [extract_audio, hp, hL, hA, hW]
  · simp [extract_audio, hp, hL, hA, hW]
  · simp [extract_audio, hp, hL, hA, hW]
  · intro q
    simp [extract_audio, hp, hL, hA, hW]
  · intro d stem ext h1 h2 h3 h4
    exact withSuffix_mk d stem ext ".mp3" h1 h2 h3 h4

/-- Claim C7, witness: on a concrete existing path the default output is
the same path with the suffix replaced by mp3. -/
theorem C7_wit :
    (extract_audio envAllOk ["/videos/clip.mp4"] "/videos/clip.mp4" none).1
      = Except.ok "/videos/clip.mp3" :=
  Eq.trans
    (C7_thm envAllOk ["/videos/clip.mp4"] "/videos/clip.mp4"
      (by decide) rfl rfl rfl).1
    rfl

/-- Claim C8: when the input path does not exist, `extract_audio` fails
with the not-found error, leaves the filesystem unchanged, and its whole
trace is the call marker, the stage-level error display and the
failed-to-load message: no load, no directory creation and no write is
attempted. -/
theorem C8_thm (e : Env) (fs : List String) (p : String) (o : Option String)
    (hp : p ∉ fs) :
    (extract_audio e fs p o).1 = Except.error (Err.notFound p) ∧
    (extract_audio e fs p o).2.2 = fs ∧
    (extract_audio e fs p o).2.1 =
      [Ev.extractCall p o,
       Ev.stageError Stage.extraction (Err.notFound p),
       Ev.videoFailedToLoad] := by
  refine ⟨?_, ?_, ?_⟩ <;> simp [extract_audio, hp]

/-- Claim C8, witness at a concrete missing path. -/
theorem C8_wit :
    (extract_audio envAllOk [] "/missing.mp4" none).1
      = Except.error (Err.notFound "/missing.mp4") ∧
    (extract_audio envAllOk [] "/missing.mp4" none).2.2 = [] ∧
    (extract_audio envAllOk [] "/missing.mp4" none).2.1 =
      [Ev.extractCall "/missing.mp4" none,
       Ev.stageError Stage.extraction (Err.notFound "/missing.mp4"),
       Ev.videoFailedToLoad] :=
  C8_thm envAllOk [] "/missing.mp4" none (by decide)

/-- Claim C9: one cleanup iteration always returns normally (never
propagates an exception), its trace holds only the unlink attempt and
possibly the warning for that path, and a failing deletion of a present
file yields the warning and leaves the filesystem unchanged. -/
theorem C9_thm (ok : Bool) (p : String) (fs : List String) :
    ∃ fs2 tr, cleanupFile ok p fs = Except.ok (fs2, tr) ∧
      (∀ ev ∈ tr, ev = Ev.unlinkCall p ∨ ev = Ev.cleanupWarning p) ∧
      (ok = false → p ∈ fs → Ev.cleanupWarning p ∈ tr ∧ fs2 = fs) := by
  obtain ⟨fs2, tr, h1, h2, _, _, h5, h6⟩ := cleanupFile_spec ok p fs
  exact ⟨fs2, tr, h1, h2, fun hok hmem => ⟨h6 hok hmem, h5 hok⟩⟩

/-- Claim C9, witness at a concrete failing deletion. -/
theorem C9_wit :
    ∃ fs2 tr,
      cleanupFile false "/tmp/a.mp4" ["/tmp/a.mp4"] = Except.ok (fs2, tr) ∧
      (∀ ev ∈ tr,
        ev = Ev.unlinkCall "/tmp/a.mp4" ∨ ev = Ev.cleanupWarning "/tmp/a.mp4") ∧
      (false = false → "/tmp/a.mp4" ∈ ["/tmp/a.mp4"] →
        Ev.cleanupWarning "/tmp/a.mp4" ∈ tr ∧ fs2 = ["/tmp/a.mp4"]) :=
  C9_thm false "/tmp/a.mp4" ["/tmp/a.mp4"]

/-- Claim C10: whatever accepted extension the file was uploaded with, the
orchestrator saves its bytes at a temp path ending in mp4 (the temp
directory plus the fresh base name plus the fixed suffix) and passes
extraction an output path that is the same temp name with the suffix
replaced by mp3. -/
theorem C10_thm (e : Env) (fs0 : List String)
    (hu : e.uploaded = true) (hw : e.uploadWriteOk = true)
    (hb : e.buttonClicked = true)
    (_hext : e.uploadExt = "mp4" ∨ e.uploadExt = "avi" ∨
      e.uploadExt = "mov" ∨ e.uploadExt = "mkv")
    (h1 : e.tmpBase ≠ "") (h2 : '.' ∉ e.tmpBase.data)
    (h3 : '/' ∉ e.tmpBase.data) :
    tmpVideoPath e.tmpBase = "/tmp/" ++ e.tmpBase ++ ".mp4" ∧
    Ev.extractCall (tmpVideoPath e.tmpBase)
        (some ("/tmp/" ++ e.tmpBase ++ ".mp3")) ∈ (app e fs0).trace := by
  obtain ⟨ctr, hcev, htr, hout, hmono, hv, ha⟩ := app_run e fs0 hu hw hb
  refine ⟨rfl, ?_⟩
  rw [htr]
  have hws := withSuffix_tmp e.tmpBase h1 h2 h3
  obtain ⟨rest, hrest⟩ := pipelineBody_trace e (initClient e).1
    (tmpVideoPath e.tmpBase) (tmpVideoPath e.tmpBase :: fs0)
  have hmem := extractCall_mem e (tmpVideoPath e.tmpBase :: fs0)
    (tmpVideoPath e.tmpBase) (some (withSuffix (tmpVideoPath e.tmpBase) ".mp3"))
  rw [hws] at hmem hrest
  rw [hrest]
  exact List.mem_append_right _
    (List.mem_append_left _
      (List.mem_append_left _
        (List.mem_append_right _
          (List.mem_append_left _ hmem))))

/-- Claim C10, witness at a concrete run. -/
theorem C10_wit :
    tmpVideoPath envAllOk.tmpBase = "/tmp/" ++ envAllOk.tmpBase ++ ".mp4" ∧
    Ev.extractCall (tmpVideoPath envAllOk.tmpBase)
        (some ("/tmp/" ++ envAllOk.tmpBase ++ ".mp3")) ∈ (app envAllOk []).trace :=
  C10_thm envAllOk [] rfl rfl rfl (Or.inl rfl) (by decide) (by decide) (by decide)

end VideoBlog
